import Mathlib

/-!
Shallow embedding of the authenticated API client of the
Mental-Health-Chatbot-Project frontend (frontend-react/src/axiosInstance.js),
its session state (frontend-react/src/AuthProvider.jsx, Header.jsx, Login),
and the two route guards (PublicRoute.jsx, PrivateRoute.jsx).

The browser's durable key-value store (localStorage) is modelled as a record
of the three entries the code touches: accessToken, refreshToken, username.
The network is an oracle `Nat → NetResult` indexed by the number of wire
dispatches performed so far; dispatched wire requests are logged so that
theorems can count refresh calls and retries.
-/

namespace MHC

/-- The three localStorage entries the frontend reads/writes
(`accessToken`, `refreshToken`, `username`); `none` models an absent key. -/
structure Store where
  accessToken : Option String
  refreshToken : Option String
  username : Option String
deriving Repr, DecidableEq

/-- Request body: every request body the client layer inspects is either
opaque (`empty`) or the refresh payload `\x7brefresh: <token>\x7d` built at
axiosInstance.js line 56-58; `refreshPayload none` models `refresh: null`
when `localStorage.getItem('refreshToken')` returned null. -/
inductive Body where
  | empty : Body
  | refreshPayload (tok : Option String) : Body
deriving Repr, DecidableEq

/-- An axios request config: method, url path, headers dictionary, body, and
the custom `retry` flag the response interceptor sets on `error.config`
(axiosInstance.js line 52). A fresh config has `retry = false`
(JS: `originalRequest.retry` undefined). -/
structure Request where
  method : String
  path : String
  headers : List (String × String)
  body : Body
  retry : Bool
deriving Repr, DecidableEq

/-- `config.headers[name] = value`: JS object assignment replaces any
existing entry for the key. -/
def setHeader (hs : List (String × String)) (nm v : String) : List (String × String) :=
  (nm, v) :: hs.filter (fun p => p.1 ≠ nm)

/-- Read a header value (JS object lookup). -/
def getHeader (hs : List (String × String)) (nm : String) : Option String :=
  (hs.find? (fun p => p.1 = nm)).map (·.2)

/-- Response payload: the only field the client layer reads is
`response.data.access` (axiosInstance.js line 61). -/
structure RespData where
  access : Option String
deriving Repr, DecidableEq

/-- An HTTP response: status code plus payload. -/
structure HttpResponse where
  status : Nat
  data : RespData
deriving Repr, DecidableEq

/-- What the wire returns for one dispatch: a fulfilled response, or a
rejection carrying an optional error response (`none` models a network
failure where `error.response` is undefined). -/
inductive NetResult where
  | ok (resp : HttpResponse) : NetResult
  | fail (resp : Option HttpResponse) : NetResult
deriving Repr, DecidableEq

/-- The axios error object as used by the response interceptor:
`error.config` and the optional `error.response`. -/
structure AxiosError where
  config : Request
  response : Option HttpResponse
deriving Repr, DecidableEq

/-- Outcome of `send`: the promise fulfills with a response or rejects with
an axios error. -/
inductive Outcome where
  | ok (resp : HttpResponse) : Outcome
  | err (e : AxiosError) : Outcome
deriving Repr, DecidableEq

/-- Client-side state threaded through a `send`: the localStorage snapshot,
the value assigned to `window.location.href` if any (axiosInstance.js
line 72), the number of wire dispatches so far, and the log of wire
requests in dispatch order. -/
structure ClientState where
  store : Store
  redirect : Option String
  calls : Nat
  log : List Request
deriving Repr, DecidableEq

/-- `error.response && error.response.status === 401` (axiosInstance.js
line 51). -/
def is401 : Option HttpResponse → Bool
  | some r => r.status == 401
  | none => false

/-- The fixed refresh endpoint (axiosInstance.js line 57). -/
def refreshPath : String := "/token/refresh/"

/-- Default headers of a config created by `axiosInstance.post`
(axiosInstance.js lines 14-19). -/
def baseHeaders : List (String × String) := [("Content-Type", "application/json")]

/-- Request interceptor (axiosInstance.js lines 24-35): if an access token
is present in the store, attach it as `Authorization: Bearer <token>`. -/
def attachAccessToken (s : Store) (req : Request) : Request :=
  match s.accessToken with
  | some tok => { req with headers := setHeader req.headers "Authorization" ("Bearer " ++ tok) }
  | none => req

/-- The fresh config built by `axiosInstance.post('/token/refresh/',
\x7brefresh: refreshToken\x7d)` at axiosInstance.js lines 57-59: default
headers, refresh payload, `retry` unset. -/
def refreshRequest (tok : Option String) : Request :=
  { method := "POST", path := refreshPath, headers := baseHeaders,
    body := Body.refreshPayload tok, retry := false }

/-- One full `axiosInstance(request)` call: request interceptor, wire
dispatch (consuming `oracle st.calls`), then the response interceptor of
axiosInstance.js lines 43-78.  On a 401 with `retry` unset it marks the
config, issues the refresh call `axiosInstance.post('/token/refresh/',
\x7brefresh: refreshToken\x7d)` through the same instance (hence through this
same function, with a fresh config), and on refresh success stores the new
access token and re-dispatches the original config; on refresh failure it
removes both tokens and assigns `window.location.href = '/login'`, then
falls through to `Promise.reject(error)`.  `fuel` bounds the recursion
depth; every claim supplies enough fuel that the `0` branch is unreachable. -/
def send (oracle : Nat → NetResult) : Nat → ClientState → Request → Outcome × ClientState
  | 0, st, req => (Outcome.err { config := req, response := none }, st)
  | fuel + 1, st, req =>
    let wire := attachAccessToken st.store req
    let res := oracle st.calls
    let st1 : ClientState :=
      { st with calls := st.calls + 1, log := st.log ++ [wire] }
    match res with
    | NetResult.ok resp => (Outcome.ok resp, st1)
    | NetResult.fail resp? =>
      let error : AxiosError := { config := wire, response := resp? }
      if is401 resp? && !wire.retry then
        let orig : Request := { wire with retry := true }
        match send oracle fuel st1 (refreshRequest st1.store.refreshToken) with
        | (Outcome.ok resp, st2) =>
          let newAccessToken := resp.data.access.getD "undefined"
          let st3 : ClientState :=
            { st2 with store := { st2.store with accessToken := some newAccessToken } }
          let orig2 : Request :=
            { orig with headers := setHeader orig.headers "Authorization" ("Bearer " ++ newAccessToken) }
          send oracle fuel st3 orig2
        | (Outcome.err _, st2) =>
          let st3 : ClientState :=
            { st2 with
              store := { st2.store with accessToken := none, refreshToken := none },
              redirect := some "/login" }
          (Outcome.err error, st3)
      else
        (Outcome.err error, st1)

/-- The config the 401-recovery branch re-dispatches: `error.config` marked
retried, with the fresh access token written into its authorization header
(axiosInstance.js lines 52 and 65). -/
def retryConfig (wire : Request) (newTok : String) : Request :=
  { wire with retry := true,
              headers := setHeader wire.headers "Authorization" ("Bearer " ++ newTok) }

/-- The client state after the first wire dispatch of a `send` (the call
counted and the wire request logged). -/
def afterDispatch (st : ClientState) (wire : Request) : ClientState :=
  { st with calls := st.calls + 1, log := st.log ++ [wire] }

/-- The wire form of the single retry after a fulfilled refresh: the
original wire config, marked retried, with the new token written by the
recovery branch (line 65) and then re-attached by the request interceptor
when the config is re-dispatched through the instance. -/
def retryWire (store : Store) (req : Request) (a2 : String) : Request :=
  attachAccessToken { store with accessToken := some a2 }
    (retryConfig (attachAccessToken store req) a2)

/-- `!!localStorage.getItem('accessToken')`: the initializer of the
`isLoggedIn` React state in AuthProvider.jsx lines 21-26 (and the body of
its storage-event handler, lines 29-31). -/
def authProviderInitFlag (s : Store) : Bool := s.accessToken.isSome

/-- Session state as held by AuthProvider.jsx: the store, the cached
in-memory `isLoggedIn` flag, and the navigation target of the last
`navigate(...)`/`location.href` instruction, if any. -/
structure SessionState where
  store : Store
  isLoggedIn : Bool
  navTarget : Option String
deriving Repr, DecidableEq

/-- `useContext(AuthContext).isLoggedIn`: how every consumer (Header,
PublicRoute, PrivateRoute) reads the authentication status. -/
def isAuthenticated (s : SessionState) : Bool := s.isLoggedIn

/-- The React state setter `setIsLoggedIn` exposed by AuthProvider.jsx:
it updates the cached flag and nothing else. -/
def setIsLoggedIn (b : Bool) (s : SessionState) : SessionState :=
  { s with isLoggedIn := b }

/-- AuthProvider at (re)initialization: flag computed from the store by the
`useState` initializer, no pending navigation from this component. -/
def initSession (store : Store) : SessionState :=
  { store := store, isLoggedIn := authProviderInitFlag store, navTarget := none }

/-- The storage-event handler of AuthProvider.jsx lines 29-31:
`setIsLoggedIn(!!localStorage.getItem('accessToken'))`. -/
def handleStorageChange (s : SessionState) : SessionState :=
  setIsLoggedIn s.store.accessToken.isSome s

/-- `handleLogout` of Header.jsx lines 15-20: remove both tokens, set the
flag false, navigate to `/login`. -/
def handleLogout (s : SessionState) : SessionState :=
  { s with
    store := { s.store with accessToken := none, refreshToken := none },
    isLoggedIn := false,
    navTarget := some "/login" }

/-- Success branch of `handleLogin` in the Login component: store both
tokens, set the flag true, navigate to `/dashboard`. -/
def handleLoginSuccess (access refresh : String) (s : SessionState) : SessionState :=
  { s with
    store := { s.store with accessToken := some access, refreshToken := some refresh },
    isLoggedIn := true,
    navTarget := some "/dashboard" }

/-- Propagate a completed client call into the session: axiosInstance.js
runs outside the React tree, so it updates localStorage and (on refresh
failure) `window.location.href`, but it has no access to `setIsLoggedIn`
and leaves the cached flag untouched. -/
def applyClientState (s : SessionState) (c : ClientState) : SessionState :=
  { store := c.store,
    isLoggedIn := s.isLoggedIn,
    navTarget := c.redirect.or s.navTarget }

/-- What a route guard renders: its child, or a `<Navigate to=.../>`. -/
inductive RenderResult where
  | child : RenderResult
  | redirect (dest : String) : RenderResult
deriving Repr, DecidableEq

/-- PublicRoute.jsx: `!isLoggedIn ? children : <Navigate to='/dashboard'/>`. -/
def PublicRoute (s : SessionState) : RenderResult :=
  if !isAuthenticated s then RenderResult.child else RenderResult.redirect "/dashboard"

/-- PrivateRoute.jsx: `isLoggedIn ? children : <Navigate to='/login'/>`. -/
def PrivateRoute (s : SessionState) : RenderResult :=
  if isAuthenticated s then RenderResult.child else RenderResult.redirect "/login"

/-! ### Concrete fixtures used by witnesses and counterexamples -/

/-- A store holding the spec scenario's tokens `"A1"`/`"R1"` and a username. -/
def store0 : Store := { accessToken := some "A1", refreshToken := some "R1", username := some "user" }

/-- Fresh client state over `store0`: no redirect, no calls yet. -/
def client0 : ClientState := { store := store0, redirect := none, calls := 0, log := [] }

/-- The `/history/` request of the spec scenario (fresh config). -/
def histReq : Request :=
  { method := "GET", path := "/history/", headers := baseHeaders, body := Body.empty, retry := false }

/-- The `/history/` config already marked retried. -/
def histReqRetried : Request := { histReq with retry := true }

/-- A 401 response. -/
def resp401 : HttpResponse := { status := 401, data := { access := none } }

/-- A 400 response. -/
def resp400 : HttpResponse := { status := 400, data := { access := none } }

/-- A 503 response. -/
def resp503 : HttpResponse := { status := 503, data := { access := none } }

/-- A 200 response with optional `data.access` payload. -/
def resp200 (a : Option String) : HttpResponse := { status := 200, data := { access := a } }

/-- Network script: every dispatch rejects with a 401. -/
def oracle401 : Nat → NetResult := fun _ => NetResult.fail (some resp401)

/-- Network script: every dispatch rejects with a 503. -/
def oracle503 : Nat → NetResult := fun _ => NetResult.fail (some resp503)

/-- Network script of the spec scenario: `/history/` rejects with 401, the
refresh call fulfills with `\x7baccess:"A2"\x7d`, everything after fulfills. -/
def oracleRefreshOk : Nat → NetResult := fun k =>
  match k with
  | 0 => NetResult.fail (some resp401)
  | 1 => NetResult.ok (resp200 (some "A2"))
  | _ => NetResult.ok (resp200 none)

/-- Network script: first dispatch rejects with 401, every later one
(including the refresh call) rejects with 400. -/
def oracleRefreshFail : Nat → NetResult := fun k =>
  match k with
  | 0 => NetResult.fail (some resp401)
  | _ => NetResult.fail (some resp400)

/-- Network script: the first dispatch and the refresh call both reject
with 401; the dispatch after that rejects with 400. -/
def oracleRefresh401 : Nat → NetResult := fun k =>
  match k with
  | 0 => NetResult.fail (some resp401)
  | 1 => NetResult.fail (some resp401)
  | _ => NetResult.fail (some resp400)

/-- Session observed right after a `/history/` call whose refresh failed:
the provider started over `store0` (flag cached from token presence), then
the client ran its 401-recovery with a failing refresh.  The axios layer
updated the store and the location but could not update the cached flag. -/
def c8Session : SessionState :=
  applyClientState (initSession store0) (send oracleRefreshFail 2 client0 histReq).2

/-! ### Basic lemmas about the request interceptor and one-step dispatch -/

lemma attach_retry (s : Store) (req : Request) :
    (attachAccessToken s req).retry = req.retry := by
  cases h : s.accessToken <;> simp [attachAccessToken, h]

lemma getHeader_setHeader (hs : List (String × String)) (nm v : String) :
    getHeader (setHeader hs nm v) nm = some v := by
  simp [getHeader, setHeader]

/-- A dispatch whose scripted result is a fulfilled response returns it
unchanged (success branch of the response interceptor). -/
lemma send_dispatch_ok (oracle : Nat → NetResult) (fuel : Nat) (st : ClientState)
    (req : Request) (resp : HttpResponse) (h : oracle st.calls = NetResult.ok resp) :
    send oracle (fuel + 1) st req =
      (Outcome.ok resp,
        { st with calls := st.calls + 1,
                  log := st.log ++ [attachAccessToken st.store req] }) := by
  simp only [send, h]

/-- A dispatch whose scripted result is a rejection that does not enter the
401-recovery branch (not a 401, or the config already marked retried)
returns the error as-is and changes nothing but the call log. -/
lemma send_dispatch_fail_terminal (oracle : Nat → NetResult) (fuel : Nat)
    (st : ClientState) (req : Request) (resp? : Option HttpResponse)
    (h : oracle st.calls = NetResult.fail resp?)
    (hc : (is401 resp? && !req.retry) = false) :
    send oracle (fuel + 1) st req =
      (Outcome.err { config := attachAccessToken st.store req, response := resp? },
        { st with calls := st.calls + 1,
                  log := st.log ++ [attachAccessToken st.store req] }) := by
  simp only [send, h]
  simp [attach_retry, hc]

/-- Unfolding of the 401-recovery branch when the inner refresh call
fulfills: the new access token is stored and the result is exactly the
re-dispatch of the marked original config bearing the new token. -/
lemma send_refresh_success_step (oracle : Nat → NetResult) (fuel : Nat)
    (st st2 : ClientState) (req : Request) (resp rresp : HttpResponse) (a2 : String)
    (hr : req.retry = false)
    (h0 : oracle st.calls = NetResult.fail (some resp)) (hs : resp.status = 401)
    (hinner : send oracle fuel (afterDispatch st (attachAccessToken st.store req))
        (refreshRequest st.store.refreshToken) = (Outcome.ok rresp, st2))
    (ha : rresp.data.access = some a2) :
    send oracle (fuel + 1) st req =
      send oracle fuel
        { st2 with store := { st2.store with accessToken := some a2 } }
        (retryConfig (attachAccessToken st.store req) a2) := by
  simp only [send, h0, is401, hs, attach_retry, hr]
  simp only [afterDispatch] at hinner
  simp [hinner, retryConfig, ha]

/-- Unfolding of the 401-recovery branch when the inner refresh call
rejects: both tokens are removed from the store, `/login` is assigned to
`window.location.href`, and the original 401 error is rejected as-is. -/
lemma send_refresh_failure_step (oracle : Nat → NetResult) (fuel : Nat)
    (st st2 : ClientState) (req : Request) (resp : HttpResponse) (e : AxiosError)
    (hr : req.retry = false)
    (h0 : oracle st.calls = NetResult.fail (some resp)) (hs : resp.status = 401)
    (hinner : send oracle fuel (afterDispatch st (attachAccessToken st.store req))
        (refreshRequest st.store.refreshToken) = (Outcome.err e, st2)) :
    send oracle (fuel + 1) st req =
      (Outcome.err { config := attachAccessToken st.store req, response := some resp },
        { st2 with store := { st2.store with accessToken := none, refreshToken := none },
                   redirect := some "/login" }) := by
  simp only [send, h0, is401, hs, attach_retry, hr]
  simp only [afterDispatch] at hinner
  simp [hinner]

/-- `send` only ever appends to the wire log. -/
lemma send_log_extend (oracle : Nat → NetResult) :
    ∀ (fuel : Nat) (st : ClientState) (req : Request),
      ∃ l, (send oracle fuel st req).2.log = st.log ++ l := by
  intro fuel
  induction fuel with
  | zero =>
    intro st req
    exact ⟨[], by simp [send]⟩
  | succ fuel ih =>
    intro st req
    simp only [send]
    rcases h : oracle st.calls with resp | resp?
    · exact ⟨[attachAccessToken st.store req], rfl⟩
    · by_cases hc : (is401 resp? && !(attachAccessToken st.store req).retry) = true
      · simp only [hc, if_true]
        rcases hsend : send oracle fuel
            { st with calls := st.calls + 1, log := st.log ++ [attachAccessToken st.store req] }
            (refreshRequest st.store.refreshToken) with ⟨out, st2⟩
        obtain ⟨l1, hl1⟩ := ih _ (refreshRequest st.store.refreshToken)
        rw [hsend] at hl1
        cases out with
        | ok rresp =>
          simp only [hsend]
          obtain ⟨l2, hl2⟩ := ih { st2 with store := { st2.store with
              accessToken := some (rresp.data.access.getD "undefined") } }
            (retryConfig (attachAccessToken st.store req)
              (rresp.data.access.getD "undefined"))
          refine ⟨attachAccessToken st.store req :: (l1 ++ l2), ?_⟩
          simp only [retryConfig] at hl2
          simp only [hl2]
          simp at hl1
          simp [hl1]
        | err e =>
          simp only [hsend]
          refine ⟨attachAccessToken st.store req :: l1, ?_⟩
          simp at hl1
          simp [hl1]
      · simp only [hc, if_false]
        exact ⟨[attachAccessToken st.store req], rfl⟩

/-- The first wire request a `send` dispatches is the request passed in,
transformed by the request interceptor against the store held at entry. -/
lemma send_succ_log (oracle : Nat → NetResult) (fuel : Nat) (st : ClientState)
    (req : Request) :
    ∃ l, (send oracle (fuel + 1) st req).2.log
      = st.log ++ attachAccessToken st.store req :: l := by
  simp only [send]
  rcases h : oracle st.calls with resp | resp?
  · exact ⟨[], rfl⟩
  · by_cases hc : (is401 resp? && !(attachAccessToken st.store req).retry) = true
    · simp only [hc, if_true]
      rcases hsend : send oracle fuel
          { st with calls := st.calls + 1, log := st.log ++ [attachAccessToken st.store req] }
          (refreshRequest st.store.refreshToken) with ⟨out, st2⟩
      obtain ⟨l1, hl1⟩ := send_log_extend oracle fuel _ (refreshRequest st.store.refreshToken)
      rw [hsend] at hl1
      cases out with
      | ok rresp =>
        simp only [hsend]
        obtain ⟨l2, hl2⟩ := send_log_extend oracle fuel { st2 with store := { st2.store with
            accessToken := some (rresp.data.access.getD "undefined") } }
          (retryConfig (attachAccessToken st.store req)
            (rresp.data.access.getD "undefined"))
        refine ⟨l1 ++ l2, ?_⟩
        simp only [retryConfig] at hl2
        simp only [hl2]
        simp at hl1
        simp [hl1]
      | err e =>
        simp only [hsend]
        refine ⟨l1, ?_⟩
        simp at hl1
        simp [hl1]
    · simp only [hc, if_false]
      exact ⟨[], rfl⟩

/-! ### Claim theorems -/

/-- C1: a request already marked retried that receives a second
authorization failure triggers no second refresh call and no second
re-dispatch; its failure outcome is returned as-is (only this one dispatch
is appended to the wire log, and store and redirect are untouched). -/
theorem retried_request_second_401_terminal (oracle : Nat → NetResult) (fuel : Nat)
    (st : ClientState) (req : Request) (resp : HttpResponse)
    (hr : req.retry = true)
    (h0 : oracle st.calls = NetResult.fail (some resp)) (hs : resp.status = 401) :
    send oracle (fuel + 1) st req =
      (Outcome.err { config := attachAccessToken st.store req, response := some resp },
        afterDispatch st (attachAccessToken st.store req)) := by
  have hc : (is401 (some resp) && !req.retry) = false := by simp [hr]
  simpa [afterDispatch] using send_dispatch_fail_terminal oracle fuel st req (some resp) h0 hc

/-- Witness for C1: the retried `/history/` config meeting a second 401 is
rejected as-is after a single wire dispatch. -/
theorem retried_request_second_401_terminal_witness :
    histReqRetried.retry = true ∧
    oracle401 client0.calls = NetResult.fail (some resp401) ∧
    resp401.status = 401 ∧
    send oracle401 1 client0 histReqRetried =
      (Outcome.err { config := attachAccessToken client0.store histReqRetried,
                     response := some resp401 },
        afterDispatch client0 (attachAccessToken client0.store histReqRetried)) :=
  ⟨rfl, rfl, rfl,
    retried_request_second_401_terminal oracle401 0 client0 histReqRetried resp401 rfl rfl rfl⟩

/-- C2 (against the code): an authorization failure of the refresh call
recursively triggers a further refresh call, because the refresh is issued
through the same instance and its fresh config has `retry` unset.  With
the first dispatch and the refresh call both rejecting with 401, the wire
log shows two refresh dispatches. -/
theorem refresh_401_triggers_second_refresh :
    ((send oracleRefresh401 4 client0 histReq).2.log.map Request.path)
        = ["/history/", refreshPath, refreshPath] ∧
    ((send oracleRefresh401 4 client0 histReq).2.log.countP
        (fun r => r.path == refreshPath)) = 2 := by
  exact ⟨rfl, rfl⟩

/-- C5: the Session State transition to unauthenticated (realised by
`handleLogout` in Header.jsx, the flow that passes `false` to
`setIsLoggedIn`) eagerly clears both stored tokens and sets the cached
flag false; the bare `setIsLoggedIn true` (called by the login flow after
it has itself written the tokens) writes no store entry and only updates
the cached flag. -/
theorem setAuthenticated_behaviour (s : SessionState) :
    ((handleLogout s).store.accessToken = none ∧
     (handleLogout s).store.refreshToken = none ∧
     (handleLogout s).isLoggedIn = false) ∧
    ((setIsLoggedIn true s).store = s.store ∧
     (setIsLoggedIn true s).isLoggedIn = true) := by
  simp [handleLogout, setIsLoggedIn]

/-- C6: when an access token is present in the store, the request
interceptor attaches it as `Authorization: Bearer <token>`, and the first
wire request of any `send` is exactly the interceptor-transformed request. -/
theorem access_token_attached_as_bearer (oracle : Nat → NetResult) (fuel : Nat)
    (st : ClientState) (req : Request) (tok : String)
    (h : st.store.accessToken = some tok) :
    getHeader (attachAccessToken st.store req).headers "Authorization"
        = some ("Bearer " ++ tok) ∧
    ∃ l, (send oracle (fuel + 1) st req).2.log
        = st.log ++ attachAccessToken st.store req :: l := by
  refine ⟨?_, send_succ_log oracle fuel st req⟩
  simp [attachAccessToken, h, getHeader_setHeader]

/-- Witness for C6: with access token `"A1"` stored, the outgoing
`/history/` request carries `Bearer A1`. -/
theorem access_token_attached_as_bearer_witness :
    client0.store.accessToken = some "A1" ∧
    (getHeader (attachAccessToken client0.store histReq).headers "Authorization"
        = some ("Bearer " ++ "A1") ∧
     ∃ l, (send oracle503 1 client0 histReq).2.log
        = client0.log ++ attachAccessToken client0.store histReq :: l) :=
  ⟨rfl, access_token_attached_as_bearer oracle503 0 client0 histReq "A1" rfl⟩

/-- C7: a rejection that is not an authorization failure (any non-401
status, or no response at all) is returned unchanged: no refresh dispatch,
no retry, store and redirect untouched. -/
theorem non_401_failure_passthrough (oracle : Nat → NetResult) (fuel : Nat)
    (st : ClientState) (req : Request) (resp? : Option HttpResponse)
    (h0 : oracle st.calls = NetResult.fail resp?) (hn : is401 resp? = false) :
    send oracle (fuel + 1) st req =
      (Outcome.err { config := attachAccessToken st.store req, response := resp? },
        afterDispatch st (attachAccessToken st.store req)) ∧
    (send oracle (fuel + 1) st req).2.store = st.store ∧
    (send oracle (fuel + 1) st req).2.redirect = st.redirect := by
  have hc : (is401 resp? && !req.retry) = false := by simp [hn]
  have heq := send_dispatch_fail_terminal oracle fuel st req resp? h0 hc
  refine ⟨by simpa [afterDispatch] using heq, ?_, ?_⟩ <;> rw [heq]

/-- Witness for C7: a 503 on `/history/` is rejected as-is after one wire
dispatch, with the store unmodified. -/
theorem non_401_failure_passthrough_witness :
    oracle503 client0.calls = NetResult.fail (some resp503) ∧
    is401 (some resp503) = false ∧
    (send oracle503 1 client0 histReq =
      (Outcome.err { config := attachAccessToken client0.store histReq,
                     response := some resp503 },
        afterDispatch client0 (attachAccessToken client0.store histReq)) ∧
     (send oracle503 1 client0 histReq).2.store = client0.store ∧
     (send oracle503 1 client0 histReq).2.redirect = client0.redirect) :=
  ⟨rfl, rfl, non_401_failure_passthrough oracle503 0 client0 histReq (some resp503) rfl rfl⟩

/-- C9: the public-only guard renders its child exactly when
`isAuthenticated` is false and otherwise redirects to `/dashboard`; the
private-only guard renders its child exactly when `isAuthenticated` is
true and otherwise redirects to `/login`. -/
theorem route_guards_match_session (s : SessionState) :
    (PublicRoute s = RenderResult.child ↔ isAuthenticated s = false) ∧
    (PublicRoute s = RenderResult.redirect "/dashboard" ↔ isAuthenticated s = true) ∧
    (PrivateRoute s = RenderResult.child ↔ isAuthenticated s = true) ∧
    (PrivateRoute s = RenderResult.redirect "/login" ↔ isAuthenticated s = false) := by
  cases hb : s.isLoggedIn <;>
    simp [PublicRoute, PrivateRoute, isAuthenticated, hb]

/-- Full evaluation of the recovery flow "401, then fulfilled refresh,
then terminal re-dispatch": the final state stores the new access token,
leaves refresh token and username as at entry, and logs exactly three wire
requests; the outcome is the retry's scripted result passed through. -/
lemma send_refresh_retry_eval (oracle : Nat → NetResult) (fuel : Nat)
    (st : ClientState) (req : Request) (resp rresp : HttpResponse) (a2 : String)
    (hr : req.retry = false)
    (h0 : oracle st.calls = NetResult.fail (some resp)) (hs : resp.status = 401)
    (h1 : oracle (st.calls + 1) = NetResult.ok rresp)
    (ha : rresp.data.access = some a2) :
    send oracle (fuel + 1 + 1) st req =
      (match oracle (st.calls + 1 + 1) with
       | NetResult.ok resp2 => Outcome.ok resp2
       | NetResult.fail resp2? =>
           Outcome.err { config := retryWire st.store req a2, response := resp2? },
       { store := { accessToken := some a2,
                    refreshToken := st.store.refreshToken,
                    username := st.store.username },
         redirect := st.redirect,
         calls := st.calls + 1 + 1 + 1,
         log := st.log ++ [attachAccessToken st.store req,
                           attachAccessToken st.store (refreshRequest st.store.refreshToken),
                           retryWire st.store req a2] }) := by
  rcases h2 : oracle (st.calls + 1 + 1) with resp2 | resp2? <;>
    simp [send, h0, h1, h2, is401, hs, hr, attach_retry, retryConfig, retryWire,
      afterDispatch, ha]

/-- C3: a request whose dispatch rejects with a single 401 and whose
refresh call fulfills with a new access token `a2` is retried exactly once
(the wire log gains exactly the original dispatch, the refresh dispatch,
and one re-dispatch of the original request), the re-dispatch carries
`Bearer a2`, the stored access token afterwards is `a2`, and the retry's
outcome is returned unmodified. -/
theorem refresh_success_single_retry (oracle : Nat → NetResult) (fuel : Nat)
    (st : ClientState) (req : Request) (resp rresp : HttpResponse) (a2 : String)
    (hr : req.retry = false)
    (h0 : oracle st.calls = NetResult.fail (some resp)) (hs : resp.status = 401)
    (h1 : oracle (st.calls + 1) = NetResult.ok rresp)
    (ha : rresp.data.access = some a2) :
    (send oracle (fuel + 1 + 1) st req).2.log
        = st.log ++ [attachAccessToken st.store req,
                     attachAccessToken st.store (refreshRequest st.store.refreshToken),
                     retryWire st.store req a2] ∧
    (retryWire st.store req a2).method = req.method ∧
    (retryWire st.store req a2).path = req.path ∧
    (retryWire st.store req a2).body = req.body ∧
    (retryWire st.store req a2).retry = true ∧
    getHeader (retryWire st.store req a2).headers "Authorization"
        = some ("Bearer " ++ a2) ∧
    (send oracle (fuel + 1 + 1) st req).2.store.accessToken = some a2 ∧
    (∀ resp2, oracle (st.calls + 1 + 1) = NetResult.ok resp2 →
        (send oracle (fuel + 1 + 1) st req).1 = Outcome.ok resp2) ∧
    (∀ resp2?, oracle (st.calls + 1 + 1) = NetResult.fail resp2? →
        (send oracle (fuel + 1 + 1) st req).1
          = Outcome.err { config := retryWire st.store req a2, response := resp2? }) := by
  have heval := send_refresh_retry_eval oracle fuel st req resp rresp a2 hr h0 hs h1 ha
  rw [heval]
  refine ⟨rfl, ?_, ?_, ?_, ?_, ?_, rfl, ?_, ?_⟩
  · cases h : st.store.accessToken <;>
      simp [retryWire, retryConfig, attachAccessToken, h]
  · cases h : st.store.accessToken <;>
      simp [retryWire, retryConfig, attachAccessToken, h]
  · cases h : st.store.accessToken <;>
      simp [retryWire, retryConfig, attachAccessToken, h]
  · simp [retryWire, retryConfig, attachAccessToken]
  · simp [retryWire, retryConfig, attachAccessToken, getHeader_setHeader]
  · intro resp2 h2
    rw [h2]
  · intro resp2? h2
    rw [h2]

/-- C10: the 401-recovery path with a fulfilled refresh writes only the
access-token entry of the store: afterwards the store holds the new access
token while the refresh token and the username are exactly those held when
recovery started. -/
theorem refresh_success_store_frame (oracle : Nat → NetResult) (fuel : Nat)
    (st : ClientState) (req : Request) (resp rresp : HttpResponse) (a2 : String)
    (hr : req.retry = false)
    (h0 : oracle st.calls = NetResult.fail (some resp)) (hs : resp.status = 401)
    (h1 : oracle (st.calls + 1) = NetResult.ok rresp)
    (ha : rresp.data.access = some a2) :
    (send oracle (fuel + 1 + 1) st req).2.store
      = { accessToken := some a2,
          refreshToken := st.store.refreshToken,
          username := st.store.username } := by
  have heval := send_refresh_retry_eval oracle fuel st req resp rresp a2 hr h0 hs h1 ha
  rw [heval]

/-- Witness for C3: the spec scenario — tokens `"A1"`/`"R1"`, a 401 on
`/history/`, refresh fulfilling with `\x7baccess:"A2"\x7d` — yields exactly one
retry of `/history/` bearing `"A2"`, with `"A2"` stored afterwards. -/
theorem refresh_success_single_retry_witness :
    histReq.retry = false ∧
    oracleRefreshOk client0.calls = NetResult.fail (some resp401) ∧
    resp401.status = 401 ∧
    oracleRefreshOk (client0.calls + 1) = NetResult.ok (resp200 (some "A2")) ∧
    (resp200 (some "A2")).data.access = some "A2" ∧
    ((send oracleRefreshOk 2 client0 histReq).2.log
        = client0.log ++ [attachAccessToken client0.store histReq,
                          attachAccessToken client0.store
                            (refreshRequest client0.store.refreshToken),
                          retryWire client0.store histReq "A2"] ∧
     (retryWire client0.store histReq "A2").method = histReq.method ∧
     (retryWire client0.store histReq "A2").path = histReq.path ∧
     (retryWire client0.store histReq "A2").body = histReq.body ∧
     (retryWire client0.store histReq "A2").retry = true ∧
     getHeader (retryWire client0.store histReq "A2").headers "Authorization"
        = some ("Bearer " ++ "A2") ∧
     (send oracleRefreshOk 2 client0 histReq).2.store.accessToken = some "A2" ∧
     (∀ resp2, oracleRefreshOk (client0.calls + 1 + 1) = NetResult.ok resp2 →
        (send oracleRefreshOk 2 client0 histReq).1 = Outcome.ok resp2) ∧
     (∀ resp2?, oracleRefreshOk (client0.calls + 1 + 1) = NetResult.fail resp2? →
        (send oracleRefreshOk 2 client0 histReq).1
          = Outcome.err { config := retryWire client0.store histReq "A2",
                          response := resp2? })) :=
  ⟨rfl, rfl, rfl, rfl, rfl,
    refresh_success_single_retry oracleRefreshOk 0 client0 histReq resp401
      (resp200 (some "A2")) "A2" rfl rfl rfl rfl rfl⟩

/-- Witness for C10: in the spec scenario the store afterwards holds
access `"A2"` with refresh token and username exactly as before recovery. -/
theorem refresh_success_store_frame_witness :
    histReq.retry = false ∧
    oracleRefreshOk client0.calls = NetResult.fail (some resp401) ∧
    resp401.status = 401 ∧
    oracleRefreshOk (client0.calls + 1) = NetResult.ok (resp200 (some "A2")) ∧
    (resp200 (some "A2")).data.access = some "A2" ∧
    (send oracleRefreshOk 2 client0 histReq).2.store
      = { accessToken := some "A2",
          refreshToken := client0.store.refreshToken,
          username := client0.store.username } :=
  ⟨rfl, rfl, rfl, rfl, rfl,
    refresh_success_store_frame oracleRefreshOk 0 client0 histReq resp401
      (resp200 (some "A2")) "A2" rfl rfl rfl rfl rfl⟩

/-- C4: for every request whose refresh call fails — the awaited refresh
promise rejects, i.e. the catch path of axiosInstance.js lines 68-77 runs,
with no restriction on the failing status (this includes a refresh that
itself got a 401 and whose recursive recovery ultimately rejected) — both
stored tokens are removed, `/login` is assigned to the location, the
original request is rejected as a failure, and the flag AuthProvider
computes when it reinitializes at the redirected location is false. -/
theorem refresh_failure_clears_and_redirects (oracle : Nat → NetResult) (fuel : Nat)
    (st st2 : ClientState) (req : Request) (resp : HttpResponse) (e : AxiosError)
    (hr : req.retry = false)
    (h0 : oracle st.calls = NetResult.fail (some resp)) (hs : resp.status = 401)
    (hinner : send oracle fuel (afterDispatch st (attachAccessToken st.store req))
        (refreshRequest st.store.refreshToken) = (Outcome.err e, st2)) :
    (send oracle (fuel + 1) st req).2.store.accessToken = none ∧
    (send oracle (fuel + 1) st req).2.store.refreshToken = none ∧
    (send oracle (fuel + 1) st req).2.redirect = some "/login" ∧
    (send oracle (fuel + 1) st req).1
      = Outcome.err { config := attachAccessToken st.store req, response := some resp } ∧
    authProviderInitFlag (send oracle (fuel + 1) st req).2.store = false := by
  have hstep := send_refresh_failure_step oracle fuel st st2 req resp e hr h0 hs hinner
  rw [hstep]
  simp [authProviderInitFlag]

/-- Witness for C4, exercising a refresh call that fails with a 401: the
first refresh dispatch rejects 401, its own recursive recovery dispatches a
second refresh which rejects 400, so the awaited refresh promise rejects;
afterwards both tokens are absent, the location is `/login`, the original
request is rejected, and the flag AuthProvider would recompute is false. -/
theorem refresh_failure_clears_and_redirects_witness :
    histReq.retry = false ∧
    oracleRefresh401 client0.calls = NetResult.fail (some resp401) ∧
    resp401.status = 401 ∧
    send oracleRefresh401 2 (afterDispatch client0 (attachAccessToken client0.store histReq))
        (refreshRequest client0.store.refreshToken)
      = (Outcome.err
          { config := attachAccessToken client0.store
              (refreshRequest client0.store.refreshToken),
            response := some resp401 },
         { store := { accessToken := none, refreshToken := none, username := some "user" },
           redirect := some "/login",
           calls := 3,
           log := [attachAccessToken client0.store histReq,
                   attachAccessToken client0.store (refreshRequest client0.store.refreshToken),
                   attachAccessToken client0.store (refreshRequest client0.store.refreshToken)] }) ∧
    ((send oracleRefresh401 3 client0 histReq).2.store.accessToken = none ∧
     (send oracleRefresh401 3 client0 histReq).2.store.refreshToken = none ∧
     (send oracleRefresh401 3 client0 histReq).2.redirect = some "/login" ∧
     (send oracleRefresh401 3 client0 histReq).1
        = Outcome.err { config := attachAccessToken client0.store histReq,
                        response := some resp401 } ∧
     authProviderInitFlag (send oracleRefresh401 3 client0 histReq).2.store = false) :=
  ⟨rfl, rfl, rfl, rfl,
    refresh_failure_clears_and_redirects oracleRefresh401 2 client0
      { store := { accessToken := none, refreshToken := none, username := some "user" },
        redirect := some "/login",
        calls := 3,
        log := [attachAccessToken client0.store histReq,
                attachAccessToken client0.store (refreshRequest client0.store.refreshToken),
                attachAccessToken client0.store (refreshRequest client0.store.refreshToken)] }
      histReq resp401
      { config := attachAccessToken client0.store (refreshRequest client0.store.refreshToken),
        response := some resp401 }
      rfl rfl rfl rfl⟩

/-- C8 counterexample: after the client's refresh-failure cleanup, the
cached flag read by `isAuthenticated` is still true although no access
token is present in the store — the claimed "iff at call time" fails. -/
theorem isAuthenticated_stale_after_client_refresh_failure :
    isAuthenticated c8Session = true ∧
    c8Session.store.accessToken = none ∧
    isAuthenticated c8Session ≠ c8Session.store.accessToken.isSome := by
  refine ⟨rfl, rfl, ?_⟩
  intro h
  exact Bool.noConfusion h

/-- C8 (amended): `isAuthenticated` returns the cached in-memory flag; the
flag equals access-token presence at provider initialization and
immediately after a storage-change notification, while the axios layer
never changes it (it can only update the store and the location). -/
theorem isAuthenticated_tracks_store_at_sync_points (store : Store)
    (s : SessionState) (c : ClientState) :
    isAuthenticated (initSession store) = store.accessToken.isSome ∧
    isAuthenticated (handleStorageChange s) = s.store.accessToken.isSome ∧
    isAuthenticated (applyClientState s c) = isAuthenticated s := by
  simp [isAuthenticated, initSession, handleStorageChange, applyClientState,
    authProviderInitFlag, setIsLoggedIn]

end MHC
